import Mathlib

/-!
Shallow embedding of the booking-creation workflow of the sos911 repository.

The repository is a family of near-duplicate Express/PostgreSQL booking backends.
Each relevant route handler is embedded as a pure Lean function from an explicit
database state (lists of rows plus SERIAL counters) and a request record to a
response and a new database state.  External collaborators are modelled as pure
inputs: the `qrcode` library as a deterministic injective encoding, `crypto.randomBytes`
as an explicit byte-list argument, `Date.now()` as an explicit natural-number argument,
and storage faults of a specific step as an explicit Boolean argument.  PostgreSQL
constraints that the handlers rely on (`UNIQUE`, `REFERENCES`, `NOT NULL`, `VARCHAR(n)`)
are modelled inside the insert logic of each variant exactly as declared by that
variant's schema.  JavaScript `undefined` is modelled as `Option.none` and the
truthiness checks `!x` of the handlers as `truthyStr` / `truthyNat`.  Floating-point
columns (`lat`/`lng`) and wall-clock timestamps are omitted: no claim depends on them.
-/

namespace SOS911

/-! ## Shared pure collaborators -/

/-- Models the external `QRCode.toDataURL` dependency used by most variants: a
deterministic, non-empty encoding of its input text into a data URL.  Determinism
(the same text always encodes to the same data URL) is a property of the real
library and is what several claims turn on. -/
def qrToDataURL (text : String) : String := "data:image/png;base64," ++ text

/-- Models `crypto.randomBytes(8).toString('hex')` from part_006 lines 15-18 and
part_003 lines 118-120: the 8 random bytes are the explicit input, and each byte
is rendered as two lowercase hexadecimal digits. -/
def byteToHex (b : Nat) : List Char :=
  [Nat.digitChar (b / 16 % 16), Nat.digitChar (b % 16)]

/-- The hex rendering of a byte list, as produced by `Buffer.toString('hex')`. -/
def generateQR (entropy : List Nat) : String :=
  String.mk ((entropy.map byteToHex).flatten)

/-- Lowercase-hexadecimal character test (0-9, a-f). -/
def isHexDigitChar (c : Char) : Bool :=
  (48 ≤ c.toNat && c.toNat ≤ 57) || (97 ≤ c.toNat && c.toNat ≤ 102)

/-- Decimal digit character test. -/
def isDigitChar (c : Char) : Bool := 48 ≤ c.toNat && c.toNat ≤ 57

/-- Numeric value of a decimal digit character. -/
def digitVal (c : Char) : Nat := c.toNat - 48

/-- The number denoted by a list of decimal digit characters, most significant first. -/
def valOfChars (l : List Char) : Nat := l.foldl (fun a c => 10 * a + digitVal c) 0

/-- Parse a non-empty all-digit character list as a decimal number. -/
def parseDecimal (l : List Char) : Option Nat :=
  if l ≠ [] ∧ l.all isDigitChar then some (valOfChars l) else none

/-- Decoder for the `booking:<id>` token payload minted by part_016 line 136:
defined exactly on strings of that shape, recovering the decimal id. -/
def decodeBookingQrText (s : String) : Option Nat :=
  match s.data with
  | 'b' :: 'o' :: 'o' :: 'k' :: 'i' :: 'n' :: 'g' :: ':' :: rest => parseDecimal rest
  | _ => none

/-! ## JavaScript string helpers shared by the handlers -/

/-- JS truthiness of a possibly-undefined string (`!x` fails on `undefined` and `""`). -/
def truthyStr : Option String → Bool
  | none => false
  | some s => s != ""

/-- JS truthiness of a possibly-undefined number (`!x` fails on `undefined` and `0`). -/
def truthyNat : Option Nat → Bool
  | none => false
  | some n => n != 0

/-- The whitespace class of the JS regex `\s` restricted to ASCII (space, tab, LF,
CR, vertical tab, form feed); the vehicle plates of this repository are ASCII. -/
def isJsWs (c : Char) : Bool :=
  c.toNat = 32 || c.toNat = 9 || c.toNat = 10 || c.toNat = 13 || c.toNat = 11 || c.toNat = 12

/-- Character-list form of JS `toUpperCase()` (ASCII; `Char.toUpper` uppercases
exactly the basic latin letters, which agrees with JS on the plate alphabet). -/
def jsToUpperChars (l : List Char) : List Char := l.map Char.toUpper

/-- JS `s.toUpperCase()`. -/
def jsToUpper (s : String) : String := String.mk (jsToUpperChars s.data)

/-- JS `replace(/ /g, '')`: remove every space character (part_008 line 91). -/
def stripSpaces : List Char → List Char
  | [] => []
  | c :: cs => if c == ' ' then stripSpaces cs else c :: stripSpaces cs

/-- JS `replace(/\s+/, ' ')` (no `g` flag, server.js line 453): replace only the
first maximal run of whitespace by a single space and leave the rest untouched. -/
def collapseFirstWsRun : List Char → List Char
  | [] => []
  | c :: cs => if isJsWs c then ' ' :: cs.dropWhile isJsWs else c :: collapseFirstWsRun cs

/-- The plate normalisation of part_008 line 91: `toUpperCase().replace(/ /g, '')`. -/
def formattedPlate008 (s : String) : String :=
  String.mk (stripSpaces (jsToUpperChars s.data))

/-- The plate normalisation of server.js line 453 (third variant, POST /book):
`toUpperCase().replace(/\s+/, ' ')`. -/
def formattedPlateV3 (s : String) : String :=
  String.mk (collapseFirstWsRun (jsToUpperChars s.data))

/-! ## part_006: standalone bookings table with UNIQUE qr_code -/

namespace Part006

/-- A row of the part_006 `bookings` table (lines 38-52); `start_time`, `end_time`,
`parts` and `labor` stay NULL at creation and are omitted. -/
structure Booking where
  id : Nat
  customer_name : Option String
  vehicle_reg : String
  service_name : Option String
  location : Option String
  bStatus : String
  qr_code : String
deriving DecidableEq

/-- The part_006 store: one bookings table with a SERIAL id counter. -/
structure Db where
  bookings : List Booking
  nextId : Nat
deriving DecidableEq

/-- Body of POST /bookings (part_006 line 75). -/
structure Req where
  customer_name : Option String
  vehicle_reg : String
  service_name : Option String
  location : Option String
deriving DecidableEq

/-- Response of POST /bookings: the inserted row, or the catch-all
500 `Failed to create booking`. -/
inductive Resp where
  | ok (b : Booking)
  | failedToCreate
deriving DecidableEq

/-- The row built by the INSERT of POST /bookings (part_006 lines 78-82):
`vehicle_reg.toUpperCase()`, schema default `'pending'`, the freshly minted qr_code. -/
def newBooking (db : Db) (req : Req) (qr_code : String) : Booking :=
  { id := db.nextId, customer_name := req.customer_name,
    vehicle_reg := jsToUpper req.vehicle_reg, service_name := req.service_name,
    location := req.location, bStatus := "pending", qr_code := qr_code }

/-- POST /bookings (part_006 lines 74-88).  `generateQR()` is called exactly once;
its result is the `qr_code` argument.  The `qr_code TEXT UNIQUE` constraint of the
schema (line 50) makes the INSERT fail when the minted token already exists, and
the catch block answers 500 without any retry. -/
def postBookings (db : Db) (req : Req) (qr_code : String) : Resp × Db :=
  if db.bookings.any (fun b => b.qr_code == qr_code) then
    (Resp.failedToCreate, db)
  else
    (Resp.ok (newBooking db req qr_code),
      { db with bookings := db.bookings ++ [newBooking db req qr_code], nextId := db.nextId + 1 })

end Part006

/-! ## server.js, second variant (lines 164-328): POST /api/bookings -/

namespace ServerJs2

/-- A row of the second server.js variant's `bookings` table (lines 227-238);
`lat`/`lng` (floats) and `created_at` omitted. -/
structure Booking where
  id : Nat
  customer_id : Nat
  service_id : Nat
  reg : String
  address : Option String
  qr_code : String
  bStatus : String
deriving DecidableEq

/-- Store of the second server.js variant.  Only the column sets the modelled
routes touch are kept: customers and services contribute their ids (for the
REFERENCES checks of the bookings insert). -/
structure Db where
  customerIds : List Nat
  serviceIds : List Nat
  bookings : List Booking
  nextBookingId : Nat
deriving DecidableEq

/-- Body of POST /api/bookings (line 288); `lat`/`lng` omitted. -/
structure Req where
  customer_id : Option Nat
  service_id : Option Nat
  reg : Option String
  address : Option String
deriving DecidableEq

/-- Response of POST /api/bookings: 400 `Missing fields`, success with the qr
data URL, or the catch-all 500. -/
inductive Resp where
  | missingFields
  | ok (qr : String)
  | dbError
deriving DecidableEq

/-- Whether a response is the success shape. -/
def Resp.success : Resp → Bool
  | .ok _ => true
  | _ => false

/-- The row built by the INSERT of POST /api/bookings (lines 292-296): the reg is
uppercased, qr_code is the data URL of the uppercased reg, the schema default
gives `'pending'`. -/
def newBooking (db : Db) (req : Req) : Booking :=
  { id := db.nextBookingId, customer_id := req.customer_id.getD 0,
    service_id := req.service_id.getD 0, reg := jsToUpper (req.reg.getD ""),
    address := req.address, qr_code := qrToDataURL (jsToUpper (req.reg.getD "")),
    bStatus := "pending" }

/-- POST /api/bookings (server.js lines 287-301).  Presence check on
customer_id/service_id/reg only; the qr code is `QRCode.toDataURL(reg.toUpperCase())`;
the INSERT enforces the REFERENCES constraints and `reg VARCHAR(10)` of the schema
(lines 227-238); the `qr_code` column carries no UNIQUE constraint. -/
def postApiBookings (db : Db) (req : Req) : Resp × Db :=
  if !(truthyNat req.customer_id && truthyNat req.service_id && truthyStr req.reg) then
    (Resp.missingFields, db)
  else if req.customer_id.getD 0 ∈ db.customerIds ∧ req.service_id.getD 0 ∈ db.serviceIds ∧
          (jsToUpper (req.reg.getD "")).length ≤ 10 then
    (Resp.ok (newBooking db req).qr_code,
      { db with bookings := db.bookings ++ [newBooking db req],
                nextBookingId := db.nextBookingId + 1 })
  else
    (Resp.dbError, db)

end ServerJs2

/-! ## part_014: POST /api/book (fresh customer row on every call) -/

namespace Part014

/-- A row of the part_014 `customers` table (lines 41-48): no UNIQUE constraint
on email, name NOT NULL. -/
structure Customer where
  id : Nat
  name : String
  email : Option String
  phone : Option String
deriving DecidableEq

/-- A row of the part_014 `bookings` table (lines 60-71); `created_at` omitted. -/
structure Booking where
  id : Nat
  customer_id : Nat
  service_id : Nat
  number_plate : String
  location : String
  qr_code : String
  bStatus : String
deriving DecidableEq

/-- The part_014 store; services contribute their ids for the REFERENCES check. -/
structure Db where
  customers : List Customer
  serviceIds : List Nat
  bookings : List Booking
  nextCustomerId : Nat
  nextBookingId : Nat
deriving DecidableEq

/-- Body of POST /api/book (part_014 line 140). -/
structure Req where
  name : Option String
  email : Option String
  phone : Option String
  numberPlate : Option String
  serviceId : Option Nat
  location : Option String
deriving DecidableEq

/-- Response of POST /api/book: 400 `Missing fields`, success with booking id and
qr code, or the catch-all 500 carrying the storage error message. -/
inductive Resp where
  | missingFields
  | ok (bookingId : Nat) (qrCode : String)
  | serverError (msg : String)
deriving DecidableEq

/-- Whether a response is the success shape. -/
def Resp.isOk : Resp → Bool
  | .ok _ _ => true
  | _ => false

/-- The customer row inserted unconditionally by POST /api/book (lines 147-151):
part_014 performs a plain INSERT, never a lookup, so every call makes a new row. -/
def newCustomer (db : Db) (req : Req) : Customer :=
  { id := db.nextCustomerId, name := req.name.getD "", email := req.email, phone := req.phone }

/-- The text handed to `generateQR` (line 154): customer id, service id and
timestamp — the booking id does not exist yet and is not part of the token. -/
def qrText (customerId sid now : Nat) : String :=
  Nat.repr customerId ++ "-" ++ Nat.repr sid ++ "-" ++ Nat.repr now

/-- POST /api/book (part_014 lines 139-168).  Presence check on
name/numberPlate/serviceId/location; then the customer INSERT commits; then the
bookings INSERT enforces `service_id INT REFERENCES services(id)` — when the
service id is unknown the second INSERT fails and the handler answers 500, but
the already-committed customer row stays (`pool.query` calls, no transaction). -/
def postApiBook (db : Db) (req : Req) (now : Nat) : Resp × Db :=
  if !(truthyStr req.name && truthyStr req.numberPlate && truthyNat req.serviceId &&
       truthyStr req.location) then
    (Resp.missingFields, db)
  else
    let c := newCustomer db req
    let db1 := { db with customers := db.customers ++ [c],
                         nextCustomerId := db.nextCustomerId + 1 }
    let sid := req.serviceId.getD 0
    let qrCode := qrToDataURL (qrText c.id sid now)
    if sid ∈ db1.serviceIds then
      let b : Booking := { id := db1.nextBookingId, customer_id := c.id, service_id := sid,
                           number_plate := jsToUpper (req.numberPlate.getD ""),
                           location := req.location.getD "", qr_code := qrCode,
                           bStatus := "pending" }
      (Resp.ok b.id qrCode,
        { db1 with bookings := db1.bookings ++ [b], nextBookingId := db1.nextBookingId + 1 })
    else
      (Resp.serverError "insert or update on table bookings violates foreign key constraint",
        db1)

end Part014

/-! ## part_013: POST /api/book (ON CONFLICT upsert on customers.email) -/

namespace Part013

/-- A row of the part_013 `customers` table (lines 43-51): email UNIQUE NOT NULL. -/
structure Customer where
  id : Nat
  name : String
  email : String
  phone : Option String
  address : Option String
  postcode : Option String
deriving DecidableEq

/-- A row of the part_013 `bookings` table (lines 60-70); latitude/longitude
(floats) and `created_at` omitted. -/
structure Booking where
  id : Nat
  customer_id : Nat
  service_id : Nat
  number_plate : String
  bStatus : String
  qr_code : String
deriving DecidableEq

/-- The part_013 store. -/
structure Db where
  customers : List Customer
  serviceIds : List Nat
  bookings : List Booking
  nextCustomerId : Nat
  nextBookingId : Nat
deriving DecidableEq

/-- Body of POST /api/book (part_013 line 167). -/
structure Req where
  name : Option String
  email : Option String
  phone : Option String
  address : Option String
  postcode : Option String
  service_id : Option Nat
  number_plate : Option String
deriving DecidableEq

/-- Response of POST /api/book: 400 `Missing fields`, success with the booking
row, or the 500 `Booking failed` answer of the catch block. -/
inductive Resp where
  | missingFields
  | ok (b : Booking)
  | bookingFailed
deriving DecidableEq

/-- The customer id carried by a success response. -/
def Resp.okCustomerId : Resp → Option Nat
  | .ok b => some b.customer_id
  | _ => none

/-- The presence check of part_013 line 168. -/
def guardOk (req : Req) : Bool :=
  truthyStr req.name && truthyStr req.email && truthyNat req.service_id &&
    truthyStr req.number_plate

/-- The name overwrite applied by `DO UPDATE SET name = EXCLUDED.name` to the
row whose email conflicts. -/
def renameTo (name email : String) (x : Customer) : Customer :=
  if x.email == email then { x with name := name } else x

/-- The fresh row inserted when the email does not conflict. -/
def freshCustomer (db : Db) (name email : String)
    (phone address postcode : Option String) : Customer :=
  { id := db.nextCustomerId, name := name, email := email,
    phone := phone, address := address, postcode := postcode }

/-- The customer upsert of part_013 lines 171-174:
`INSERT ... ON CONFLICT (email) DO UPDATE SET name = EXCLUDED.name RETURNING id`.
On a fresh email a row is appended; on a conflicting email the existing row keeps
its id and only its name is overwritten. -/
def upsertCustomer (db : Db) (name email : String) (phone address postcode : Option String) :
    Nat × Db :=
  match db.customers.find? (fun c => c.email == email) with
  | some c => (c.id, { db with customers := db.customers.map (renameTo name email) })
  | none =>
      (db.nextCustomerId,
        { db with
            customers := db.customers ++ [freshCustomer db name email phone address postcode],
            nextCustomerId := db.nextCustomerId + 1 })

/-- POST /api/book (part_013 lines 165-185).  Presence check, customer upsert,
qr from `Booking-<now>-<plate>`, then the bookings INSERT with explicit state
`'Pending'` under `number_plate VARCHAR(10)` and the REFERENCES check on
service_id; on INSERT failure the catch answers 500 while the committed upsert
stays. -/
def postApiBook (db : Db) (req : Req) (now : Nat) : Resp × Db :=
  if !(guardOk req) then
    (Resp.missingFields, db)
  else
    let up := upsertCustomer db (req.name.getD "") (req.email.getD "")
      req.phone req.address req.postcode
    let custId := up.1
    let db1 := up.2
    let plate := req.number_plate.getD ""
    let qr := qrToDataURL ("Booking-" ++ Nat.repr now ++ "-" ++ plate)
    let sid := req.service_id.getD 0
    if sid ∈ db1.serviceIds ∧ (jsToUpper plate).length ≤ 10 then
      let b : Booking := { id := db1.nextBookingId, customer_id := custId, service_id := sid,
                           number_plate := jsToUpper plate, bStatus := "Pending", qr_code := qr }
      (Resp.ok b,
        { db1 with bookings := db1.bookings ++ [b], nextBookingId := db1.nextBookingId + 1 })
    else
      (Resp.bookingFailed, db1)

end Part013

/-! ## server.js, third variant (lines 328-515): POST /book -/

namespace ServerJs3

/-- A row of the third server.js variant's `customers` table (lines 351-357):
email UNIQUE, phone UNIQUE, all columns nullable. -/
structure Customer where
  id : Nat
  name : Option String
  email : Option String
  phone : Option String
deriving DecidableEq

/-- A row of the third variant's `bookings` table (lines 371-384); mechanic_id,
booking_datetime, lat/lng and total_cost stay NULL at creation and are omitted. -/
structure Booking where
  id : Nat
  customer_id : Nat
  vehicle_plate : String
  service_id : Option Nat
  address : Option String
  bStatus : String
deriving DecidableEq

/-- The third variant's store. -/
structure Db where
  customers : List Customer
  serviceIds : List Nat
  bookings : List Booking
  nextCustomerId : Nat
  nextBookingId : Nat
deriving DecidableEq

/-- Body of POST /book (line 436). -/
structure Req where
  name : Option String
  email : Option String
  phone : Option String
  vehicle_plate : Option String
  address : Option String
  service_id : Option Nat
deriving DecidableEq

/-- Response of POST /book: success carries the new booking id, any thrown error
is answered 500 with the error's message by the catch block. -/
inductive Resp where
  | ok (booking_id : Nat)
  | serverError (msg : String)
deriving DecidableEq

/-- SQL `SELECT * FROM customers WHERE email=$1`: a NULL parameter matches no
row, a non-NULL one matches rows with that exact email. -/
def lookupByEmail (customers : List Customer) : Option String → Option Customer
  | none => none
  | some e => customers.find? (fun c => c.email == some e)

/-- Whether inserting a customer with the given phone violates the
`phone VARCHAR(20) UNIQUE` constraint (NULL phones never conflict). -/
def phoneConflict (customers : List Customer) : Option String → Bool
  | none => false
  | some p => customers.any (fun c => c.phone == some p)

/-- The booking INSERT of lines 451-454 once a customer id is resolved.  The
plate is `vehicle_plate.toUpperCase().replace(/\s+/, ' ')`; evaluating that on an
absent plate throws a TypeError which the route's catch turns into a 500 — after
the customer insert already committed.  The INSERT enforces
`vehicle_plate VARCHAR(10)` and `service_id INT REFERENCES services(id)`. -/
def bookInsert (db : Db) (customer_id : Nat) (req : Req) : Resp × Db :=
  match req.vehicle_plate with
  | none => (Resp.serverError "Cannot read properties of undefined", db)
  | some plate =>
      let fp := formattedPlateV3 plate
      let fkOk : Bool := match req.service_id with
        | none => true
        | some s => db.serviceIds.contains s
      if fp.length ≤ 10 ∧ fkOk = true then
        (Resp.ok db.nextBookingId,
          { db with
              bookings := db.bookings ++
                [{ id := db.nextBookingId, customer_id := customer_id, vehicle_plate := fp,
                   service_id := req.service_id, address := req.address, bStatus := "pending" }],
              nextBookingId := db.nextBookingId + 1 })
      else
        (Resp.serverError "booking insert failed", db)

/-- POST /book (server.js lines 434-461): look the customer up by email, insert
one when absent (subject to the UNIQUE phone constraint), then run the booking
INSERT — whose plate expression throws on an absent plate. -/
def postBook (db : Db) (req : Req) : Resp × Db :=
  match lookupByEmail db.customers req.email with
  | some c => bookInsert db c.id req
  | none =>
      if phoneConflict db.customers req.phone then
        (Resp.serverError "duplicate key value violates unique constraint", db)
      else
        bookInsert
          { db with
              customers := db.customers ++
                [{ id := db.nextCustomerId, name := req.name, email := req.email,
                   phone := req.phone }],
              nextCustomerId := db.nextCustomerId + 1 }
          db.nextCustomerId req

end ServerJs3

/-! ## part_016: POST /api/bookings (insert booking, then attach qr row) -/

namespace Part016

/-- A row of the part_016 `bookings` table (lines 48-59); `date` and the float
columns omitted. -/
structure Booking where
  id : Nat
  customer_id : Option Nat
  service_id : Option Nat
  address : String
  postcode : String
  number_plate : Option String
  bStatus : String
deriving DecidableEq

/-- A row of the part_016 `qr_codes` table (lines 67-71). -/
structure QrRow where
  booking_id : Nat
  qr_code : String
deriving DecidableEq

/-- The part_016 store. -/
structure Db where
  customerIds : List Nat
  serviceIds : List Nat
  bookings : List Booking
  qr_codes : List QrRow
  nextBookingId : Nat
deriving DecidableEq

/-- Body of POST /api/bookings (line 129). -/
structure Req where
  customer_id : Option Nat
  service_id : Option Nat
  address : Option String
  postcode : Option String
  number_plate : Option String
deriving DecidableEq

/-- Response of POST /api/bookings: `{success:true, booking, qr}` or
`{success:false, error}`. -/
inductive Resp where
  | ok (b : Booking) (qr : String)
  | fail (error : String)
deriving DecidableEq

/-- Whether a response is the success shape. -/
def Resp.isOk : Resp → Bool
  | .ok _ _ => true
  | _ => false

/-- Whether the booking INSERT satisfies the schema: `address`/`postcode` are
NOT NULL and the two foreign keys must reference existing rows when non-NULL. -/
def insertOk (db : Db) (req : Req) : Bool :=
  req.address.isSome && req.postcode.isSome &&
    (match req.customer_id with
     | none => true
     | some c => db.customerIds.contains c) &&
    (match req.service_id with
     | none => true
     | some s => db.serviceIds.contains s)

/-- The booking row built by the INSERT (lines 131-134), state defaulting to
`'pending'`. -/
def newBooking (db : Db) (req : Req) : Booking :=
  { id := db.nextBookingId, customer_id := req.customer_id, service_id := req.service_id,
    address := req.address.getD "", postcode := req.postcode.getD "",
    number_plate := req.number_plate, bStatus := "pending" }

/-- The text encoded into the booking's QR (line 136): the new booking's id. -/
def bookingQrText (id : Nat) : String := "booking:" ++ Nat.repr id

/-- POST /api/bookings (part_016 lines 128-143).  The booking INSERT commits
first; then the QR is generated and inserted into `qr_codes`.  Both statements
run in one try block with no transaction, so when the second step fails — the
`qrOk` argument injects that storage fault — the catch answers
`{success:false}` although the booking row has already committed. -/
def postApiBookings (db : Db) (req : Req) (qrOk : Bool) : Resp × Db :=
  if insertOk db req then
    let b := newBooking db req
    let db1 := { db with bookings := db.bookings ++ [b],
                         nextBookingId := db.nextBookingId + 1 }
    if qrOk then
      let qr := qrToDataURL (bookingQrText b.id)
      (Resp.ok b qr,
        { db1 with qr_codes := db1.qr_codes ++ [{ booking_id := b.id, qr_code := qr }] })
    else
      (Resp.fail "qr step failed", db1)
  else
    (Resp.fail "booking insert failed", db)

end Part016

/-! ## part_001: POST /api/bookings (Joi validation, token minted before insert) -/

namespace Part001

/-- ASCII letter test (the `[A-Z]` class of the Joi postcode regex under the
`i` flag). -/
def isAsciiLetter (c : Char) : Bool :=
  (65 ≤ c.toNat && c.toNat ≤ 90) || (97 ≤ c.toNat && c.toNat ≤ 122)

/-- Tail `[A-Z\d]? ?\d[A-Z]{2}$` of the Joi postcode regex of part_001 line 42,
after the leading letters and first digit. -/
def pcTail : List Char → Bool
  | [d, a, b] => isDigitChar d && isAsciiLetter a && isAsciiLetter b
  | [x, d, a, b] =>
      (isAsciiLetter x || isDigitChar x || x == ' ') &&
        isDigitChar d && isAsciiLetter a && isAsciiLetter b
  | [x, s, d, a, b] =>
      (isAsciiLetter x || isDigitChar x) && s == ' ' &&
        isDigitChar d && isAsciiLetter a && isAsciiLetter b
  | _ => false

/-- The Joi postcode regex `^[A-Z]{1,2}\d[A-Z\d]? ?\d[A-Z]{2}$/i` of part_001
line 42: one or two letters, a digit, then the tail. -/
def postcodePatternOk (s : String) : Bool :=
  match s.data with
  | c1 :: c2 :: rest =>
      (isAsciiLetter c1 && isDigitChar c2 && pcTail rest) ||
        (isAsciiLetter c1 && isAsciiLetter c2 &&
          (match rest with
           | d :: rest2 => isDigitChar d && pcTail rest2
           | [] => false))
  | _ => false

/-- A row of the part_001 `bookings` table (lines 77-88). -/
structure Booking where
  id : Nat
  customer_id : Nat
  service_id : Nat
  location : String
  postcode : String
  qr_code : String
  bStatus : String
deriving DecidableEq

/-- The part_001 store; customers and services contribute their ids. -/
structure Db where
  customerIds : List Nat
  serviceIds : List Nat
  bookings : List Booking
  nextBookingId : Nat
deriving DecidableEq

/-- Body of POST /api/bookings as constrained by the Joi bookingSchema
(part_001 lines 37-44). -/
structure Req where
  customer_id : Option Nat
  service_id : Option Nat
  location : Option String
  postcode : Option String
deriving DecidableEq

/-- Response of POST /api/bookings: Joi 400, success with the row, or 500. -/
inductive Resp where
  | validationError
  | ok (b : Booking)
  | serverError
deriving DecidableEq

/-- Whether a response is the success shape. -/
def Resp.isOk : Resp → Bool
  | .ok _ => true
  | _ => false

/-- The Joi bookingSchema check (lines 37-44): both ids present, location a
non-empty string, postcode present and matching the pattern. -/
def validate (req : Req) : Bool :=
  req.customer_id.isSome && req.service_id.isSome && truthyStr req.location &&
    (match req.postcode with
     | none => false
     | some pc => postcodePatternOk pc)

/-- The token text of part_001 line 147, minted before the booking INSERT:
customer id, service id and timestamp — the booking id does not exist yet. -/
def qrData (customer_id service_id now : Nat) : String :=
  "booking:" ++ Nat.repr customer_id ++ ":" ++ Nat.repr service_id ++ ":" ++ Nat.repr now

/-- POST /api/bookings (part_001 lines 141-158): Joi validation, token minting
from customer/service/timestamp, then the INSERT under the REFERENCES
constraints and `location VARCHAR(100)`, `postcode VARCHAR(10)`. -/
def postApiBookings (db : Db) (req : Req) (now : Nat) : Resp × Db :=
  if !(validate req) then
    (Resp.validationError, db)
  else
    let cid := req.customer_id.getD 0
    let sid := req.service_id.getD 0
    let location := req.location.getD ""
    let postcode := req.postcode.getD ""
    let qr_code := qrToDataURL (qrData cid sid now)
    if cid ∈ db.customerIds ∧ sid ∈ db.serviceIds ∧
        location.length ≤ 100 ∧ postcode.length ≤ 10 then
      let b : Booking := { id := db.nextBookingId, customer_id := cid, service_id := sid,
                           location := location, postcode := postcode,
                           qr_code := qr_code, bStatus := "pending" }
      (Resp.ok b,
        { db with bookings := db.bookings ++ [b], nextBookingId := db.nextBookingId + 1 })
    else
      (Resp.serverError, db)

end Part001

/-! ## Concrete states and requests used by counterexamples and witnesses -/

/-- Seeded part_014 store: five services, no customers, no bookings. -/
def ex2Db : Part014.Db :=
  { customers := [], serviceIds := [1, 2, 3, 4, 5], bookings := [],
    nextCustomerId := 1, nextBookingId := 1 }

/-- A POST /api/book body whose plate `AB1 CD` is malformed (the spec's own
example of a plate violating the grammar) but non-empty. -/
def ex2Req : Part014.Req :=
  { name := some "Alice", email := some "alice@example.com", phone := some "07123456789",
    numberPlate := some "AB1 CD", serviceId := some 1, location := some "10 High St" }

/-- A POST /api/book body with the plate absent. -/
def ex2ReqMissing : Part014.Req :=
  { name := some "Alice", email := some "alice@example.com", phone := none,
    numberPlate := none, serviceId := some 1, location := some "10 High St" }

/-- A POST /api/book body referencing the unknown service 999. -/
def ex3Req : Part014.Req :=
  { name := some "Alice", email := some "alice@example.com", phone := some "07123456789",
    numberPlate := some "AB12CDE", serviceId := some 999, location := some "10 High St" }

/-- First C4 body: previously-unseen email. -/
def ex4Req1 : Part014.Req :=
  { name := some "Alice", email := some "new@example.com", phone := some "07111111111",
    numberPlate := some "AB12CDE", serviceId := some 1, location := some "10 High St" }

/-- Second C4 body: same email, different booking details. -/
def ex4Req2 : Part014.Req :=
  { name := some "Alice", email := some "new@example.com", phone := some "07111111111",
    numberPlate := some "XY34ZGH", serviceId := some 2, location := some "11 High St" }

/-- First part_014 call with the fresh email. -/
def ex4Run1 : Part014.Resp × Part014.Db := Part014.postApiBook ex2Db ex4Req1 100

/-- Second part_014 call, same email, on the state left by the first. -/
def ex4Run2 : Part014.Resp × Part014.Db := Part014.postApiBook ex4Run1.2 ex4Req2 200

/-- Seeded part_013 store: three services, no customers yet. -/
def ex4Db013 : Part013.Db :=
  { customers := [], serviceIds := [1, 2, 3], bookings := [],
    nextCustomerId := 1, nextBookingId := 1 }

/-- First part_013 body with a previously-unseen email. -/
def ex4R1 : Part013.Req :=
  { name := some "Alice", email := some "new@example.com", phone := some "07111111111",
    address := some "10 High St", postcode := some "ME1 1AA",
    service_id := some 1, number_plate := some "AB12CDE" }

/-- Second part_013 body: same email, different booking details. -/
def ex4R2 : Part013.Req :=
  { name := some "Alicia", email := some "new@example.com", phone := some "07222222222",
    address := some "12 High St", postcode := some "ME2 2BB",
    service_id := some 2, number_plate := some "XY34ZGH" }

/-- Seeded part_001 store: one customer, three services. -/
def ex5Db : Part001.Db :=
  { customerIds := [1], serviceIds := [1, 2, 3], bookings := [], nextBookingId := 1 }

/-- A body passing the Joi bookingSchema. -/
def ex5Req : Part001.Req :=
  { customer_id := some 1, service_id := some 2, location := some "Medway",
    postcode := some "ME1 1AA" }

/-- First part_001 call at timestamp 1000. -/
def ex5Run1 : Part001.Resp × Part001.Db := Part001.postApiBookings ex5Db ex5Req 1000

/-- Second part_001 call, same body and the same millisecond, on the state left
by the first. -/
def ex5Run2 : Part001.Resp × Part001.Db := Part001.postApiBookings ex5Run1.2 ex5Req 1000

/-- A part_014 body whose plate holds two adjacent interior spaces. -/
def ex6Req : Part014.Req :=
  { name := some "Alice", email := some "alice@example.com", phone := some "07123456789",
    numberPlate := some "ab12  cde", serviceId := some 1, location := some "10 High St" }

/-- Seeded part_016 store: three customers, five services. -/
def ex8Db : Part016.Db :=
  { customerIds := [1, 2, 3], serviceIds := [1, 2, 3, 4, 5], bookings := [],
    qr_codes := [], nextBookingId := 1 }

/-- A valid part_016 body. -/
def ex8Req : Part016.Req :=
  { customer_id := some 1, service_id := some 1, address := some "Medway Rd, Chatham",
    postcode := some "ME4 5AA", number_plate := some "AB12CDE" }

/-- Seeded third-variant store: one existing customer, three services. -/
def ex9Db : ServerJs3.Db :=
  { customers := [{ id := 1, name := some "John Doe", email := some "john@example.com",
                    phone := some "07700123456" }],
    serviceIds := [1, 2, 3], bookings := [], nextCustomerId := 2, nextBookingId := 1 }

/-- A POST /book body with a fresh email and the vehicle plate absent. -/
def ex9Req : ServerJs3.Req :=
  { name := some "Alice", email := some "alice@example.com", phone := some "07123456789",
    vehicle_plate := none, address := some "10 High St", service_id := some 1 }

/-- A part_006 store holding one booking whose token is `aabbccddeeff0011`. -/
def ex7Db : Part006.Db :=
  { bookings := [{ id := 1, customer_name := some "Customer 1", vehicle_reg := "AB12CDE1",
                   service_name := some "Service 2", location := some "Address 1",
                   bStatus := "pending", qr_code := "aabbccddeeff0011" }],
    nextId := 2 }

/-- A fresh POST /bookings body for part_006. -/
def ex7Req : Part006.Req :=
  { customer_name := some "Alice", vehicle_reg := "ZZ99ZZZ",
    service_name := some "Oil Change", location := some "1 High St" }

/-- Seeded second-variant store: three customers, three services, no bookings. -/
def ex1Db : ServerJs2.Db :=
  { customerIds := [1, 2, 3], serviceIds := [1, 2, 3], bookings := [], nextBookingId := 1 }

/-- A valid POST /api/bookings body. -/
def ex1Req : ServerJs2.Req :=
  { customer_id := some 1, service_id := some 1, reg := some "AB12CDE",
    address := some "1 High Street, Medway" }

/-- First run of POST /api/bookings on the seeded store. -/
def ex1Run1 : ServerJs2.Resp × ServerJs2.Db := ServerJs2.postApiBookings ex1Db ex1Req

/-- Second run, same body, on the state left by the first run. -/
def ex1Run2 : ServerJs2.Resp × ServerJs2.Db := ServerJs2.postApiBookings ex1Run1.2 ex1Req

-- ===== THEOREM SECTION =====

/-! ## Helper lemmas -/

/-- The data-URL encoding never returns the empty string. -/
theorem qrToDataURL_ne_empty (s : String) : qrToDataURL s ≠ "" := by
  intro h
  have := congrArg String.data h
  simp [qrToDataURL, String.data_append] at this

/-- A digit below 16 renders as a lowercase hex character. -/
theorem isHexDigitChar_digitChar (d : Nat) (h : d < 16) :
    isHexDigitChar (Nat.digitChar d) = true := by
  interval_cases d <;> rfl

/-- Hex rendering of a byte list has two characters per byte. -/
theorem bytesToHex_length (l : List Nat) : ((l.map byteToHex).flatten).length = 2 * l.length := by
  induction l with
  | nil => rfl
  | cons b t ih =>
    simp only [List.map_cons, List.flatten_cons, List.length_append, ih, byteToHex,
      List.length_cons, List.length_nil]
    omega

/-! ## C10 -/

/-- Claim C10: every token produced by the random-bytes minter `generateQR`
(part_006 lines 15-18, part_003 lines 118-120) from its 8 random bytes is a
16-character lowercase-hexadecimal string; in particular it is non-empty and of
fixed length on every call. -/
theorem c10_generateQR_hex (entropy : List Nat) (hlen : entropy.length = 8) :
    (generateQR entropy).length = 16 ∧ generateQR entropy ≠ "" ∧
      ∀ c ∈ (generateQR entropy).data, isHexDigitChar c = true := by
  have hl : (generateQR entropy).length = 16 := by
    show ((entropy.map byteToHex).flatten).length = 16
    rw [bytesToHex_length, hlen]
  refine ⟨hl, ?_, ?_⟩
  · intro h
    rw [h] at hl
    simp at hl
  · intro c hc
    have hc2 : c ∈ (entropy.map byteToHex).flatten := hc
    rcases List.mem_flatten.mp hc2 with ⟨l, hl1, hl2⟩
    rcases List.mem_map.mp hl1 with ⟨b, _, rfl⟩
    simp only [byteToHex, List.mem_cons, List.not_mem_nil, or_false] at hl2
    rcases hl2 with rfl | rfl
    · exact isHexDigitChar_digitChar _ (Nat.mod_lt _ (by norm_num))
    · exact isHexDigitChar_digitChar _ (Nat.mod_lt _ (by norm_num))

/-- Witness for C10 at a concrete byte list. -/
theorem c10_witness :
    ([0, 17, 34, 51, 68, 85, 250, 255] : List Nat).length = 8 ∧
      ((generateQR [0, 17, 34, 51, 68, 85, 250, 255]).length = 16 ∧
        generateQR [0, 17, 34, 51, 68, 85, 250, 255] ≠ "" ∧
        ∀ c ∈ (generateQR [0, 17, 34, 51, 68, 85, 250, 255]).data, isHexDigitChar c = true) :=
  ⟨by decide, c10_generateQR_hex [0, 17, 34, 51, 68, 85, 250, 255] (by decide)⟩

/-! ## C7 -/

/-- Claim C7 counterexample: in part_006 (POST /bookings, lines 74-88) a minted
token that collides with the stored token of booking 1 makes the whole call fail
with the 500 `Failed to create booking` answer and leaves the store unchanged —
there is no retry with fresh entropy, so a token collision does cause
createBooking to report failure, contrary to the claim. -/
theorem c7_counterexample :
    (Part006.postBookings ex7Db ex7Req "aabbccddeeff0011").1 = Part006.Resp.failedToCreate ∧
    (Part006.postBookings ex7Db ex7Req "aabbccddeeff0011").2 = ex7Db := by
  decide

/-- Claim C7 amended: if the minted token collides with an existing booking's
token, the part_006 INSERT violates `qr_code TEXT UNIQUE` and the handler reports
failure (500 `Failed to create booking`) without retrying; no booking is created. -/
theorem c7_amended_collision_fails (db : Part006.Db) (req : Part006.Req) (tok : String)
    (hcol : db.bookings.any (fun b => b.qr_code == tok) = true) :
    (Part006.postBookings db req tok).1 = Part006.Resp.failedToCreate ∧
    (Part006.postBookings db req tok).2 = db := by
  simp [Part006.postBookings, hcol]

/-- Witness for the amended C7 at a concrete colliding token. -/
theorem c7_witness :
    ex7Db.bookings.any (fun b => b.qr_code == "aabbccddeeff0011") = true ∧
      ((Part006.postBookings ex7Db ex7Req "aabbccddeeff0011").1 = Part006.Resp.failedToCreate ∧
        (Part006.postBookings ex7Db ex7Req "aabbccddeeff0011").2 = ex7Db) :=
  ⟨by decide, c7_amended_collision_fails ex7Db ex7Req "aabbccddeeff0011" (by decide)⟩

/-! ## C1 -/

/-- Claim C1 counterexample: two successful POST /api/bookings calls (server.js
lines 287-301) with the same registration `AB12CDE` both succeed and persist two
distinct bookings holding the identical token, because the token is
`QRCode.toDataURL(reg.toUpperCase())` — a deterministic function of the plate
alone — and this variant's `qr_code` column has no UNIQUE constraint.  Tokens are
therefore not globally unique among bookings, contrary to the claim. -/
theorem c1_counterexample :
    ex1Run1.1.success = true ∧ ex1Run2.1.success = true ∧
    ∃ b1 ∈ ex1Run2.2.bookings, ∃ b2 ∈ ex1Run2.2.bookings,
      b1.id ≠ b2.id ∧ b1.qr_code = b2.qr_code := by
  decide

/-- Claim C1 amended: every successful POST /api/bookings call appends exactly one
booking whose stored state is the schema default `"pending"` and whose token is
non-empty; global uniqueness of the token is dropped (see the counterexample). -/
theorem c1_amended_pending_nonempty (db : ServerJs2.Db) (req : ServerJs2.Req)
    (hok : (ServerJs2.postApiBookings db req).1.success = true) :
    ∃ b : ServerJs2.Booking,
      (ServerJs2.postApiBookings db req).2.bookings = db.bookings ++ [b] ∧
      b.bStatus = "pending" ∧ b.qr_code ≠ "" := by
  by_cases h1 : (truthyNat req.customer_id && truthyNat req.service_id && truthyStr req.reg) = true
  · by_cases h2 : req.customer_id.getD 0 ∈ db.customerIds ∧ req.service_id.getD 0 ∈ db.serviceIds ∧
        (jsToUpper (req.reg.getD "")).length ≤ 10
    · refine ⟨ServerJs2.newBooking db req, ?_, rfl, qrToDataURL_ne_empty _⟩
      simp [ServerJs2.postApiBookings, h1, h2]
    · exfalso
      simp [ServerJs2.postApiBookings, h1, h2, ServerJs2.Resp.success] at hok
  · exfalso
    simp [ServerJs2.postApiBookings, h1, ServerJs2.Resp.success] at hok

/-- Witness for the amended C1 at a concrete valid request. -/
theorem c1_witness :
    (ServerJs2.postApiBookings ex1Db ex1Req).1.success = true ∧
      ∃ b : ServerJs2.Booking,
        (ServerJs2.postApiBookings ex1Db ex1Req).2.bookings = ex1Db.bookings ++ [b] ∧
        b.bStatus = "pending" ∧ b.qr_code ≠ "" :=
  ⟨by decide, c1_amended_pending_nonempty ex1Db ex1Req (by decide)⟩

/-! ## C2 -/

/-- Claim C2 counterexample: the POST /api/book handler of part_014 (lines
139-168) accepts the malformed plate `AB1 CD` — the spec's own example of a
plate violating the grammar — because the handler only checks presence, never a
plate grammar: the call succeeds and persists both a Booking row (storing
`AB1 CD` verbatim after uppercasing) and a Customer row, contrary to the claim
that it fails with a ValidationError and persists nothing. -/
theorem c2_counterexample :
    (Part014.postApiBook ex2Db ex2Req 1000).1.isOk = true ∧
    (Part014.postApiBook ex2Db ex2Req 1000).2.bookings.length = ex2Db.bookings.length + 1 ∧
    (Part014.postApiBook ex2Db ex2Req 1000).2.customers.length = ex2Db.customers.length + 1 ∧
    ∃ b ∈ (Part014.postApiBook ex2Db ex2Req 1000).2.bookings, b.number_plate = "AB1 CD" := by
  decide

/-- Claim C2 amended: only a missing or empty vehicle plate is rejected — with
the 400 `Missing fields` answer and nothing persisted; a malformed non-empty
plate passes the presence check and is persisted (see the counterexample). -/
theorem c2_amended_missing_plate_rejected (db : Part014.Db) (req : Part014.Req) (now : Nat)
    (h : truthyStr req.numberPlate = false) :
    Part014.postApiBook db req now = (Part014.Resp.missingFields, db) := by
  simp [Part014.postApiBook, h]

/-- Witness for the amended C2 at a concrete body with the plate absent. -/
theorem c2_witness :
    truthyStr ex2ReqMissing.numberPlate = false ∧
      Part014.postApiBook ex2Db ex2ReqMissing 5 = (Part014.Resp.missingFields, ex2Db) :=
  ⟨by decide, c2_amended_missing_plate_rejected ex2Db ex2ReqMissing 5 (by decide)⟩

/-! ## C3 -/

/-- Claim C3 counterexample: POST /api/book of part_014 with the unknown service
id 999 does not answer a NotFoundError and does not write zero rows: the booking
INSERT fails on the REFERENCES constraint and the handler answers the generic
500, but the Customer row inserted beforehand stays committed. -/
theorem c3_counterexample :
    (Part014.postApiBook ex2Db ex3Req 1000).1 =
      Part014.Resp.serverError
        "insert or update on table bookings violates foreign key constraint" ∧
    (Part014.postApiBook ex2Db ex3Req 1000).2.customers.length =
      ex2Db.customers.length + 1 ∧
    (Part014.postApiBook ex2Db ex3Req 1000).2.bookings = ex2Db.bookings := by
  decide

/-- Claim C3 amended: with a non-existent serviceId the part_014 call fails with
the generic 500 foreign-key storage error (not a NotFoundError) and writes no
Booking row, but it does write one Customer row as a side effect of the failed
call — the customer INSERT committed before the booking INSERT failed. -/
theorem c3_amended_fk_failure_keeps_customer (db : Part014.Db) (req : Part014.Req) (now : Nat)
    (hname : truthyStr req.name = true) (hplate : truthyStr req.numberPlate = true)
    (hsid : truthyNat req.serviceId = true) (hloc : truthyStr req.location = true)
    (hmiss : req.serviceId.getD 0 ∉ db.serviceIds) :
    (Part014.postApiBook db req now).1 =
      Part014.Resp.serverError
        "insert or update on table bookings violates foreign key constraint" ∧
    (Part014.postApiBook db req now).2.bookings = db.bookings ∧
    (Part014.postApiBook db req now).2.customers =
      db.customers ++ [Part014.newCustomer db req] := by
  refine ⟨?_, ?_, ?_⟩ <;>
    simp [Part014.postApiBook, hname, hplate, hsid, hloc, hmiss]

/-- Witness for the amended C3 at the concrete unknown-service body. -/
theorem c3_witness :
    truthyStr ex3Req.name = true ∧ truthyStr ex3Req.numberPlate = true ∧
    truthyNat ex3Req.serviceId = true ∧ truthyStr ex3Req.location = true ∧
    ex3Req.serviceId.getD 0 ∉ ex2Db.serviceIds ∧
      ((Part014.postApiBook ex2Db ex3Req 77).1 =
        Part014.Resp.serverError
          "insert or update on table bookings violates foreign key constraint" ∧
      (Part014.postApiBook ex2Db ex3Req 77).2.bookings = ex2Db.bookings ∧
      (Part014.postApiBook ex2Db ex3Req 77).2.customers =
        ex2Db.customers ++ [Part014.newCustomer ex2Db ex3Req]) :=
  ⟨by decide, by decide, by decide, by decide, by decide,
    c3_amended_fk_failure_keeps_customer ex2Db ex3Req 77
      (by decide) (by decide) (by decide) (by decide) (by decide)⟩

/-! ## C4 -/

/-- Claim C4 counterexample: part_014 (a cited booking-creation path) resolves
the same previously-unseen email to two different customer ids: both calls
succeed, the store ends with two Customer rows holding `new@example.com`, and
the two bookings reference different customer ids — customer resolution is not
idempotent there, contrary to the claim. -/
theorem c4_counterexample :
    ex4Run1.1.isOk = true ∧ ex4Run2.1.isOk = true ∧
    (ex4Run2.2.customers.filter (fun c => c.email == some "new@example.com")).length = 2 ∧
    ∃ b1 ∈ ex4Run2.2.bookings, ∃ b2 ∈ ex4Run2.2.bookings,
      b1.customer_id ≠ b2.customer_id := by
  decide

/-- The ON CONFLICT name update of part_013 never changes the email column. -/
theorem map_email_renameTo (l : List Part013.Customer) (nm e : String) :
    (l.map (Part013.renameTo nm e)).map (fun c => c.email) =
      l.map (fun c => c.email) := by
  rw [List.map_map]
  apply List.map_congr_left
  intro x _
  simp only [Function.comp_apply, Part013.renameTo]
  split <;> rfl

/-- When a predicate finds nothing in the front list, searching the concatenation
searches the back list. -/
theorem find?_append_none {α : Type} (p : α → Bool) (l1 l2 : List α)
    (h : l1.find? p = none) : (l1 ++ l2).find? p = l2.find? p := by
  induction l1 with
  | nil => rfl
  | cons a t ih =>
    rw [List.cons_append]
    cases hpa : p a with
    | false =>
      simp only [List.find?, hpa] at h ⊢
      exact ih h
    | true =>
      simp only [List.find?, hpa] at h
      exact Option.noConfusion h

/-- Success shape, resolved customer id and updated store of a part_013 call
whose email is previously unseen. -/
theorem postApiBook013_fresh_ok (db : Part013.Db) (r : Part013.Req) (now : Nat)
    (hg : Part013.guardOk r = true)
    (hfresh : db.customers.find? (fun c => c.email == r.email.getD "") = none)
    (hsvc : r.service_id.getD 0 ∈ db.serviceIds)
    (hp : (jsToUpper (r.number_plate.getD "")).length ≤ 10) :
    (Part013.postApiBook db r now).1.okCustomerId = some db.nextCustomerId ∧
    (Part013.postApiBook db r now).2.customers = db.customers ++
      [Part013.freshCustomer db (r.name.getD "") (r.email.getD "")
        r.phone r.address r.postcode] ∧
    (Part013.postApiBook db r now).2.serviceIds = db.serviceIds := by
  refine ⟨?_, ?_, ?_⟩ <;>
    simp [Part013.postApiBook, hg, Part013.upsertCustomer, hfresh, hsvc, hp,
      Part013.Resp.okCustomerId]

/-- Success shape, resolved customer id and updated store of a part_013 call
whose email is already present. -/
theorem postApiBook013_found_ok (db : Part013.Db) (r : Part013.Req) (now : Nat)
    (c : Part013.Customer) (hg : Part013.guardOk r = true)
    (hfind : db.customers.find? (fun x => x.email == r.email.getD "") = some c)
    (hsvc : r.service_id.getD 0 ∈ db.serviceIds)
    (hp : (jsToUpper (r.number_plate.getD "")).length ≤ 10) :
    (Part013.postApiBook db r now).1.okCustomerId = some c.id ∧
    (Part013.postApiBook db r now).2.customers =
      db.customers.map (Part013.renameTo (r.name.getD "") (r.email.getD "")) := by
  refine ⟨?_, ?_⟩ <;>
    simp [Part013.postApiBook, hg, Part013.upsertCustomer, hfind, hsvc, hp,
      Part013.Resp.okCustomerId]

/-- Claim C4 amended: in the part_013 path (ON CONFLICT upsert, lines 171-174)
customer resolution is idempotent — two calls with the same previously-unseen
email both resolve to the same customer id and the email column set gains exactly
one entry; in the part_014 path every call inserts a fresh Customer row, so the
claim fails there (see the counterexample). -/
theorem c4_amended_upsert_idempotent (db : Part013.Db) (r1 r2 : Part013.Req) (now1 now2 : Nat)
    (hg1 : Part013.guardOk r1 = true) (hg2 : Part013.guardOk r2 = true)
    (hemail : r2.email = r1.email)
    (hfresh : db.customers.find? (fun c => c.email == r1.email.getD "") = none)
    (hsvc1 : r1.service_id.getD 0 ∈ db.serviceIds)
    (hsvc2 : r2.service_id.getD 0 ∈ db.serviceIds)
    (hp1 : (jsToUpper (r1.number_plate.getD "")).length ≤ 10)
    (hp2 : (jsToUpper (r2.number_plate.getD "")).length ≤ 10) :
    (Part013.postApiBook db r1 now1).1.okCustomerId = some db.nextCustomerId ∧
    (Part013.postApiBook (Part013.postApiBook db r1 now1).2 r2 now2).1.okCustomerId =
      some db.nextCustomerId ∧
    (Part013.postApiBook (Part013.postApiBook db r1 now1).2 r2 now2).2.customers.map
        (fun c => c.email) =
      db.customers.map (fun c => c.email) ++ [r1.email.getD ""] := by
  obtain ⟨hA1, hA2, hA3⟩ := postApiBook013_fresh_ok db r1 now1 hg1 hfresh hsvc1 hp1
  have hemail2 : r2.email.getD "" = r1.email.getD "" := by rw [hemail]
  have hfind2 : (Part013.postApiBook db r1 now1).2.customers.find?
        (fun x => x.email == r2.email.getD "") =
      some (Part013.freshCustomer db (r1.name.getD "") (r1.email.getD "")
        r1.phone r1.address r1.postcode) := by
    rw [hemail2, hA2, find?_append_none _ _ _ hfresh]
    simp [List.find?, Part013.freshCustomer]
  have hsvc2b : r2.service_id.getD 0 ∈ (Part013.postApiBook db r1 now1).2.serviceIds := by
    rw [hA3]
    exact hsvc2
  obtain ⟨hB1, hB2⟩ :=
    postApiBook013_found_ok (Part013.postApiBook db r1 now1).2 r2 now2 _ hg2 hfind2 hsvc2b hp2
  refine ⟨hA1, hB1, ?_⟩
  rw [hB2, hemail2, map_email_renameTo, hA2]
  simp [Part013.freshCustomer]

/-- Witness for the amended C4 at concrete part_013 bodies. -/
theorem c4_witness :
    Part013.guardOk ex4R1 = true ∧ Part013.guardOk ex4R2 = true ∧
    ex4R2.email = ex4R1.email ∧
    ex4Db013.customers.find? (fun c => c.email == ex4R1.email.getD "") = none ∧
    ex4R1.service_id.getD 0 ∈ ex4Db013.serviceIds ∧
    ex4R2.service_id.getD 0 ∈ ex4Db013.serviceIds ∧
    (jsToUpper (ex4R1.number_plate.getD "")).length ≤ 10 ∧
    (jsToUpper (ex4R2.number_plate.getD "")).length ≤ 10 ∧
      ((Part013.postApiBook ex4Db013 ex4R1 11).1.okCustomerId = some ex4Db013.nextCustomerId ∧
      (Part013.postApiBook (Part013.postApiBook ex4Db013 ex4R1 11).2 ex4R2 22).1.okCustomerId =
        some ex4Db013.nextCustomerId ∧
      (Part013.postApiBook (Part013.postApiBook ex4Db013 ex4R1 11).2 ex4R2 22).2.customers.map
          (fun c => c.email) =
        ex4Db013.customers.map (fun c => c.email) ++ [ex4R1.email.getD ""]) :=
  ⟨by decide, by decide, by decide, by decide, by decide, by decide, by decide, by decide,
    c4_amended_upsert_idempotent ex4Db013 ex4R1 ex4R2 11 22 (by decide) (by decide)
      (by decide) (by decide) (by decide) (by decide) (by decide) (by decide)⟩

/-! ## Decimal printing and its round-trip (for C5) -/

/-- Numeric value of a printed digit, below 10. -/
theorem digitVal_digitChar (d : Nat) (h : d < 10) : digitVal (Nat.digitChar d) = d := by
  interval_cases d <;> rfl

/-- A printed digit below 10 satisfies the digit-character test. -/
theorem isDigitChar_digitChar (d : Nat) (h : d < 10) : isDigitChar (Nat.digitChar d) = true := by
  interval_cases d <;> rfl

/-- The accumulator of core's `Nat.toDigitsCore` is a plain suffix. -/
theorem toDigitsCore_append (fuel n : Nat) (acc : List Char) :
    Nat.toDigitsCore 10 fuel n acc = Nat.toDigitsCore 10 fuel n [] ++ acc := by
  induction fuel generalizing n acc with
  | zero => simp [Nat.toDigitsCore]
  | succ f ih =>
    simp only [Nat.toDigitsCore]
    by_cases h : n / 10 = 0
    · simp [h]
    · simp only [if_neg h]
      rw [ih (n / 10) (Nat.digitChar (n % 10) :: acc), ih (n / 10) [Nat.digitChar (n % 10)]]
      simp

/-- Appending one digit multiplies the decoded value by ten and adds the digit. -/
theorem valOfChars_append_one (l : List Char) (c : Char) :
    valOfChars (l ++ [c]) = 10 * valOfChars l + digitVal c := by
  simp [valOfChars, List.foldl_append]

/-- One unfolding of `Nat.toDigitsCore` at positive fuel. -/
theorem toDigitsCore_succ_eq (f n : Nat) :
    Nat.toDigitsCore 10 (f + 1) n [] =
      if n / 10 = 0 then [Nat.digitChar (n % 10)]
      else Nat.toDigitsCore 10 f (n / 10) [Nat.digitChar (n % 10)] := rfl

/-- With enough fuel, decoding the printed digits recovers the number. -/
theorem valOfChars_toDigitsCore (fuel n : Nat) (h : n < 10 ^ fuel) :
    valOfChars (Nat.toDigitsCore 10 fuel n []) = n := by
  induction fuel generalizing n with
  | zero => interval_cases n; rfl
  | succ f ih =>
    rw [toDigitsCore_succ_eq]
    by_cases h0 : n / 10 = 0
    · rw [if_pos h0]
      have hn : n < 10 := by omega
      rw [Nat.mod_eq_of_lt hn]
      simp [valOfChars, digitVal_digitChar n hn]
    · rw [if_neg h0, toDigitsCore_append, valOfChars_append_one]
      have hp : 10 ^ (f + 1) = 10 ^ f * 10 := pow_succ 10 f
      have hdiv : n / 10 < 10 ^ f := by omega
      rw [ih (n / 10) hdiv, digitVal_digitChar _ (Nat.mod_lt n (by norm_num))]
      omega

/-- Core prints `n` with fuel `n + 1`, which is always enough. -/
theorem n_lt_ten_pow (n : Nat) : n < 10 ^ (n + 1) := by
  calc n < 10 ^ n := Nat.lt_pow_self (by norm_num) n
  _ ≤ 10 ^ (n + 1) := Nat.pow_le_pow_right (by norm_num) (by omega)

/-- Every character printed by `Nat.toDigitsCore` in base ten is a digit. -/
theorem all_digits_toDigitsCore (fuel n : Nat) :
    ∀ c ∈ Nat.toDigitsCore 10 fuel n [], isDigitChar c = true := by
  induction fuel generalizing n with
  | zero =>
    intro c hc
    simp [Nat.toDigitsCore] at hc
  | succ f ih =>
    rw [toDigitsCore_succ_eq]
    by_cases h0 : n / 10 = 0
    · rw [if_pos h0]
      intro c hc
      simp at hc
      subst hc
      exact isDigitChar_digitChar _ (Nat.mod_lt n (by norm_num))
    · rw [if_neg h0, toDigitsCore_append]
      intro c hc
      rcases List.mem_append.mp hc with h1 | h1
      · exact ih (n / 10) c h1
      · simp at h1
        subst h1
        exact isDigitChar_digitChar _ (Nat.mod_lt n (by norm_num))

/-- The printed digit list is never empty. -/
theorem toDigitsCore_ne_nil (f n : Nat) : Nat.toDigitsCore 10 (f + 1) n [] ≠ [] := by
  rw [toDigitsCore_succ_eq]
  by_cases h0 : n / 10 = 0
  · simp [h0]
  · rw [if_neg h0, toDigitsCore_append]
    simp

/-- Parsing the decimal printing of any natural number gives it back. -/
theorem parseDecimal_repr (n : Nat) : parseDecimal (Nat.repr n).data = some n := by
  have hdata : (Nat.repr n).data = Nat.toDigitsCore 10 (n + 1) n [] := rfl
  rw [hdata, parseDecimal,
    if_pos ⟨toDigitsCore_ne_nil n n,
      List.all_eq_true.mpr (all_digits_toDigitsCore (n + 1) n)⟩,
    valOfChars_toDigitsCore (n + 1) n (n_lt_ten_pow n)]

/-! ## C5 -/

/-- Claim C5 counterexample: in part_001 (POST /api/bookings, lines 141-158) the
token is minted from customer id, service id and timestamp BEFORE the booking row
exists, so its input does not include the booking id: two calls in the same
millisecond with the same body both succeed and produce two bookings with
different ids but the identical token — no decoding can recover the originating
booking id from such a token, contrary to the claim. -/
theorem c5_counterexample :
    ex5Run1.1.isOk = true ∧ ex5Run2.1.isOk = true ∧
    ∃ b1 ∈ ex5Run2.2.bookings, ∃ b2 ∈ ex5Run2.2.bookings,
      b1.id ≠ b2.id ∧ b1.qr_code = b2.qr_code := by
  decide

/-- Claim C5 amended: only the part_016 path (and the equivalent second part_010
variant) mints the token from the new booking's id — payload `booking:<id>`, line
136 — and there encoding then decoding recovers the originating booking id; the
part_001/part_013/part_014 paths mint the token from customer/service/timestamp
or plate data without the booking id, where the round-trip fails (see the
counterexample). -/
theorem c5_amended_roundtrip (id : Nat) :
    decodeBookingQrText (Part016.bookingQrText id) = some id := by
  have h : decodeBookingQrText (Part016.bookingQrText id) =
      parseDecimal (Nat.repr id).data := rfl
  rw [h]
  exact parseDecimal_repr id

/-! ## Whitespace and uppercasing lemmas (for C6) -/

/-- Reading back a valid scalar value stored through `Char.ofNat`. -/
theorem toNat_ofNat_valid (m : Nat) (h : m < 55296) : (Char.ofNat m).toNat = m := by
  have hv : m.isValidChar := Or.inl h
  rw [Char.ofNat, dif_pos hv]
  rfl

/-- Uppercasing never changes whether a character is whitespace. -/
theorem isJsWs_toUpper (c : Char) : isJsWs (Char.toUpper c) = isJsWs c := by
  by_cases h : c.toNat ≥ 97 ∧ c.toNat ≤ 122
  · have h2 : (Char.ofNat (c.toNat - 32)).toNat = c.toNat - 32 :=
      toNat_ofNat_valid _ (by omega)
    have e1 : isJsWs (Char.ofNat (c.toNat - 32)) = false := by
      simp only [isJsWs, h2, Bool.or_eq_false_iff, decide_eq_false_iff_not]
      omega
    have e2 : isJsWs c = false := by
      simp only [isJsWs, Bool.or_eq_false_iff, decide_eq_false_iff_not]
      omega
    simp only [Char.toUpper, if_pos h, e1, e2]
  · simp only [Char.toUpper, if_neg h]

/-- Removing spaces is the identity on space-free input. -/
theorem stripSpaces_id (l : List Char) (h : ∀ c ∈ l, isJsWs c = false) :
    stripSpaces l = l := by
  induction l with
  | nil => rfl
  | cons a t ih =>
    have ha := h a (List.mem_cons_self a t)
    have hne : (a == ' ') = false := by
      by_cases he : a = ' '
      · rw [he] at ha
        exact absurd ha (by decide)
      · simp [he]
    simp only [stripSpaces, hne, Bool.false_eq_true, if_false]
    rw [ih (fun c hc => h c (List.mem_cons_of_mem a hc))]

/-- Collapsing the first whitespace run is the identity on whitespace-free input. -/
theorem collapseFirstWsRun_id (l : List Char) (h : ∀ c ∈ l, isJsWs c = false) :
    collapseFirstWsRun l = l := by
  induction l with
  | nil => rfl
  | cons a t ih =>
    have ha := h a (List.mem_cons_self a t)
    simp only [collapseFirstWsRun, ha, Bool.false_eq_true, if_false]
    rw [ih (fun c hc => h c (List.mem_cons_of_mem a hc))]

/-- Uppercasing preserves whitespace-freeness. -/
theorem no_ws_map_toUpper (l : List Char) (h : ∀ c ∈ l, isJsWs c = false) :
    ∀ c ∈ jsToUpperChars l, isJsWs c = false := by
  intro c hc
  rcases List.mem_map.mp hc with ⟨a, ha, rfl⟩
  rw [isJsWs_toUpper]
  exact h a ha

/-! ## C6 -/

/-- Claim C6 counterexample: the booking paths do not share one canonical
normalisation.  part_014 stores plates merely uppercased — `ab12  cde` is stored
as `AB12  CDE` with its two adjacent interior spaces intact, violating the
"collapsed to none or one space" form — while on the same raw plate part_008
strips every space and server.js POST /book keeps exactly one, so the three
cited paths produce three different stored plates. -/
theorem c6_counterexample :
    (∃ b ∈ (Part014.postApiBook ex2Db ex6Req 7).2.bookings, b.number_plate = "AB12  CDE") ∧
    formattedPlate008 "ab12 cde" = "AB12CDE" ∧
    formattedPlateV3 "ab12 cde" = "AB12 CDE" ∧
    jsToUpper "ab12  cde" = "AB12  CDE" ∧
    formattedPlate008 "ab12 cde" ≠ formattedPlateV3 "ab12 cde" := by
  decide

/-- Claim C6 amended: every path uppercases the stored plate, but the whitespace
rules differ per path (part_014 keeps whitespace verbatim, part_008 strips all
spaces, server.js POST /book collapses only the first whitespace run); the three
normalisations coincide — all equal to plain uppercasing — exactly on plates
containing no whitespace. -/
theorem c6_amended_ws_free_agree (s : String) (h : ∀ c ∈ s.data, isJsWs c = false) :
    formattedPlate008 s = jsToUpper s ∧ formattedPlateV3 s = jsToUpper s := by
  have hu := no_ws_map_toUpper s.data h
  constructor
  · show String.mk (stripSpaces (jsToUpperChars s.data)) = String.mk (jsToUpperChars s.data)
    rw [stripSpaces_id _ hu]
  · show String.mk (collapseFirstWsRun (jsToUpperChars s.data)) = String.mk (jsToUpperChars s.data)
    rw [collapseFirstWsRun_id _ hu]

/-- Witness for the amended C6 at a whitespace-free plate. -/
theorem c6_witness :
    (∀ c ∈ ("aB12cDe" : String).data, isJsWs c = false) ∧
      (formattedPlate008 "aB12cDe" = jsToUpper "aB12cDe" ∧
        formattedPlateV3 "aB12cDe" = jsToUpper "aB12cDe") :=
  ⟨by decide, c6_amended_ws_free_agree "aB12cDe" (by decide)⟩

/-! ## C8 -/

/-- Claim C8 counterexample: in part_016 (POST /api/bookings, lines 128-143) a
storage fault at the qr-attach step after a successful booking INSERT makes the
handler answer `{success:false}` although the booking row has committed — the
caller is told the call failed after the booking in fact exists, contrary to the
claim. -/
theorem c8_counterexample :
    (Part016.postApiBookings ex8Db ex8Req false).1 = Part016.Resp.fail "qr step failed" ∧
    (Part016.postApiBookings ex8Db ex8Req false).2.bookings.length = 1 ∧
    (Part016.postApiBookings ex8Db ex8Req false).2.qr_codes = [] := by
  decide

/-- Claim C8 amended: the part_016 handler never reports success without having
persisted the booking, but it CAN report failure after the booking has committed:
when the qr-attach step fails after a successful insert, the caller receives
`{success:false}` while the booking row (token row absent) stays committed. -/
theorem c8_amended_commit_then_fail (db : Part016.Db) (req : Part016.Req) (qrOk : Bool) :
    ((Part016.postApiBookings db req qrOk).1.isOk = true →
      (Part016.postApiBookings db req qrOk).2.bookings =
        db.bookings ++ [Part016.newBooking db req]) ∧
    (Part016.insertOk db req = true → qrOk = false →
      (Part016.postApiBookings db req qrOk).1 = Part016.Resp.fail "qr step failed" ∧
      (Part016.postApiBookings db req qrOk).2.bookings =
        db.bookings ++ [Part016.newBooking db req]) := by
  constructor
  · intro hok
    by_cases hi : Part016.insertOk db req = true
    · by_cases hq : qrOk = true
      · simp [Part016.postApiBookings, hi, hq]
      · simp [Part016.postApiBookings, hi, hq]
    · exfalso
      simp [Part016.postApiBookings, hi, Part016.Resp.isOk] at hok
  · intro hi hq
    subst hq
    simp [Part016.postApiBookings, hi]

/-- Witness for the amended C8 at a concrete valid body with an injected
qr-step fault. -/
theorem c8_witness :
    Part016.insertOk ex8Db ex8Req = true ∧
      ((Part016.postApiBookings ex8Db ex8Req false).1 = Part016.Resp.fail "qr step failed" ∧
        (Part016.postApiBookings ex8Db ex8Req false).2.bookings =
          ex8Db.bookings ++ [Part016.newBooking ex8Db ex8Req]) :=
  ⟨by decide, (c8_amended_commit_then_fail ex8Db ex8Req false).2 (by decide) rfl⟩

/-! ## C9 -/

/-- Claim C9 counterexample: POST /book of the third server.js variant (lines
434-461) has no guard before `vehicle_plate.toUpperCase()`: with the plate
absent and a fresh email, the customer INSERT commits first, then the TypeError
is thrown and caught into a 500 — leaving a newly created Customer row persisted
by a request whose booking failed, contrary to the claim. -/
theorem c9_counterexample :
    (ServerJs3.postBook ex9Db ex9Req).1 =
      ServerJs3.Resp.serverError "Cannot read properties of undefined" ∧
    (ServerJs3.postBook ex9Db ex9Req).2.customers.length = ex9Db.customers.length + 1 ∧
    (ServerJs3.postBook ex9Db ex9Req).2.bookings = ex9Db.bookings := by
  decide

/-- Claim C9 amended: the handler evaluates `.toUpperCase()` on the plate WITHOUT
a guard; a missing plate makes the call throw a TypeError (caught into a 500)
only after customer resolution, so for a previously-unseen email the newly
created Customer row stays persisted although the booking fails. -/
theorem c9_amended_typeerror_after_customer (db : ServerJs3.Db) (req : ServerJs3.Req)
    (hplate : req.vehicle_plate = none)
    (hemail : ServerJs3.lookupByEmail db.customers req.email = none)
    (hphone : ServerJs3.phoneConflict db.customers req.phone = false) :
    (ServerJs3.postBook db req).1 =
      ServerJs3.Resp.serverError "Cannot read properties of undefined" ∧
    (ServerJs3.postBook db req).2.bookings = db.bookings ∧
    (ServerJs3.postBook db req).2.customers = db.customers ++
      [{ id := db.nextCustomerId, name := req.name, email := req.email,
         phone := req.phone }] := by
  refine ⟨?_, ?_, ?_⟩ <;>
    simp [ServerJs3.postBook, hemail, hphone, ServerJs3.bookInsert, hplate]

/-- Witness for the amended C9 at the concrete plate-less body. -/
theorem c9_witness :
    ex9Req.vehicle_plate = none ∧
    ServerJs3.lookupByEmail ex9Db.customers ex9Req.email = none ∧
    ServerJs3.phoneConflict ex9Db.customers ex9Req.phone = false ∧
      ((ServerJs3.postBook ex9Db ex9Req).1 =
        ServerJs3.Resp.serverError "Cannot read properties of undefined" ∧
      (ServerJs3.postBook ex9Db ex9Req).2.bookings = ex9Db.bookings ∧
      (ServerJs3.postBook ex9Db ex9Req).2.customers = ex9Db.customers ++
        [{ id := ex9Db.nextCustomerId, name := ex9Req.name, email := ex9Req.email,
           phone := ex9Req.phone }]) :=
  ⟨rfl, by decide, by decide,
    c9_amended_typeerror_after_customer ex9Db ex9Req rfl (by decide) (by decide)⟩

end SOS911
